import Mathlib

/-!
Shallow embedding of `src/app.py` (Hodako/ytdlp_downloader), a FastAPI shell
around the yt-dlp extraction library.

The embedding models:
- the pydantic option model `YtDlpOptions` and request model `VideoRequest`,
  with their field defaults and `model_dump(exclude_none=True)`;
- pydantic validation of an untyped request payload (which fields may be
  absent), as `validateVideoRequest`;
- the gateway coroutine `run_yt_dlp_operation`, as a function of an explicit
  environment (the outcome of the external `ydl.extract_info` call, and
  whether the cookie-file write / the cleanup `os.remove` fail) and an
  explicit filesystem (the set of existing paths).

The yt-dlp library itself is opaque in the source, so its call is modelled by
an `ExtOutcome` value: it returns an info object, or raises DownloadError,
ExtractorError, or some other exception. `ydl.prepare_filename` is likewise
opaque and is modelled as an uninterpreted field of the info object.
Info-level log lines that interpolate the whole option dict are omitted from
the log model; the error/warning log lines and the cookie-file log line are
kept.
-/

/-- Values stored in the yt-dlp option dictionary (Python dict values). -/
inductive OptVal where
  | str (s : String)
  | bool (b : Bool)
  | int (n : Int)
deriving DecidableEq, Repr

/-- Python truthiness of a dict value: non-empty string, `True`, non-zero int. -/
def OptVal.truthy : OptVal → Bool
  | .str s => s != ""
  | .bool b => b
  | .int n => n != 0

/-- A Python dict with string keys, as an association list (keys unique in all
dicts the program builds). -/
abbrev Dict := List (String × OptVal)

/-- `d.get(k)`: the value at key `k`, if present. -/
def dictGet : Dict → String → Option OptVal
  | [], _ => none
  | (a, v) :: tl, k => if a == k then some v else dictGet tl k

/-- `d.pop(k, None)` / `del d[k]`: remove key `k`. -/
def dictErase : Dict → String → Dict
  | [], _ => []
  | (a, v) :: tl, k => if a == k then dictErase tl k else (a, v) :: dictErase tl k

/-- `d[k] = v`: set key `k` to `v`. -/
def dictSet (d : Dict) (k : String) (v : OptVal) : Dict :=
  dictErase d k ++ [(k, v)]

/-- `k in d`. -/
def dictHasKey (d : Dict) (k : String) : Bool :=
  (dictGet d k).isSome

/-- Truthiness of `d.get(k)` (missing key is falsy, like Python `None`). -/
def dictTruthy (d : Dict) (k : String) : Bool :=
  match dictGet d k with
  | some v => v.truthy
  | none => false

/-- The filesystem, as the list of existing paths. -/
abbrev FS := List String

/-- `open(p, 'w')` + write: afterwards the path exists. -/
def fsWrite (fs : FS) (p : String) : FS :=
  if p ∈ fs then fs else p :: fs

/-- `os.remove(p)`. -/
def fsRemove (fs : FS) (p : String) : FS :=
  fs.filter (fun q => q != p)

/-- `DOWNLOADS_DIR = "downloads"` (line 22 of `app.py`). -/
def DOWNLOADS_DIR : String := "downloads"

/-- `os.path.join` for the two-component paths the program builds. -/
def os_path_join (a b : String) : String := a ++ "/" ++ b

/-- The pydantic model `YtDlpOptions` (lines 27-46) with its field defaults. -/
structure YtDlpOptions where
  format : String := "bestvideo[ext=mp4]+bestaudio[ext=m4a]/best[ext=mp4]/best"
  outtmpl : String := os_path_join DOWNLOADS_DIR "%(title)s.%(ext)s"
  noplaylist : Bool := true
  nocheckcertificate : Bool := true
  retries : Int := 5
  extractor_retries : Int := 5
  verbose : Bool := false
  cookies : Option String := none
deriving DecidableEq, Repr

/-- The pydantic model `VideoRequest` (lines 50-55): required `url`, options
defaulting to `YtDlpOptions()`. -/
structure VideoRequest where
  url : String
  options : YtDlpOptions := {}
deriving DecidableEq, Repr

/-- `options.model_dump(exclude_none=True)` (lines 140/150): every declared
field except that `cookies` is dropped when it is `None`. -/
def YtDlpOptions.model_dump_exclude_none (o : YtDlpOptions) : Dict :=
  [("format", OptVal.str o.format),
   ("outtmpl", OptVal.str o.outtmpl),
   ("noplaylist", OptVal.bool o.noplaylist),
   ("nocheckcertificate", OptVal.bool o.nocheckcertificate),
   ("retries", OptVal.int o.retries),
   ("extractor_retries", OptVal.int o.extractor_retries),
   ("verbose", OptVal.bool o.verbose)] ++
  (match o.cookies with
   | some s => [("cookies", OptVal.str s)]
   | none => [])

/-- An incoming JSON body for the options object: each declared field may be
absent (pydantic then applies the field default). The field types are already
the declared ones; a body of the wrong shape is outside this model. -/
structure RawOptionsPayload where
  format : Option String := none
  outtmpl : Option String := none
  noplaylist : Option Bool := none
  nocheckcertificate : Option Bool := none
  retries : Option Int := none
  extractor_retries : Option Int := none
  verbose : Option Bool := none
  cookies : Option String := none
deriving DecidableEq, Repr

/-- An incoming JSON body for `VideoRequest`: `url` and `options` may each be
absent. -/
structure RawRequestPayload where
  url : Option String := none
  options : Option RawOptionsPayload := none
deriving DecidableEq, Repr

/-- Pydantic validation outcomes for `VideoRequest`. The only constraint the
models declare is that `url` is required (`Field(...)`); no field of
`YtDlpOptions` carries a bound or validator. -/
inductive ValidationError where
  | missingUrl
deriving DecidableEq, Repr

/-- Pydantic construction of `YtDlpOptions` from a body: absent fields take
the declared defaults; no declared validator can reject a well-typed body. -/
def YtDlpOptions.fromPayload (p : RawOptionsPayload) : YtDlpOptions :=
  let d : YtDlpOptions := {}
  { format := p.format.getD d.format,
    outtmpl := p.outtmpl.getD d.outtmpl,
    noplaylist := p.noplaylist.getD d.noplaylist,
    nocheckcertificate := p.nocheckcertificate.getD d.nocheckcertificate,
    retries := p.retries.getD d.retries,
    extractor_retries := p.extractor_retries.getD d.extractor_retries,
    verbose := p.verbose.getD d.verbose,
    cookies := p.cookies }

/-- Pydantic validation of a `VideoRequest` body: fails iff `url` is absent;
an absent `options` object becomes `YtDlpOptions()`. -/
def validateVideoRequest (p : RawRequestPayload) : Except ValidationError VideoRequest :=
  match p.url with
  | none => .error .missingUrl
  | some u => .ok { url := u, options := YtDlpOptions.fromPayload (p.options.getD {}) }

/-- The info object returned by `ydl.extract_info`; yt-dlp is opaque, so the
fields the gateway reads (`title`, `extractor`) and the value of
`ydl.prepare_filename(info)` are uninterpreted data. -/
structure Info where
  title : Option String := none
  extractor : Option String := none
  prepared_filename : String := ""
deriving DecidableEq, Repr

/-- `ydl.prepare_filename(info)` (line 93), modelled as reading the
uninterpreted field. -/
def prepare_filename (info : Info) : String := info.prepared_filename

/-- The outcome of the external `ydl.extract_info` call inside the `try`
block: success, or one of the exception classes the gateway distinguishes. -/
inductive ExtOutcome where
  | ok (info : Info)
  | downloadError (msg : String)
  | extractorError (msg : String)
  | otherError (msg : String)
deriving DecidableEq, Repr

/-- The environment of one gateway call: what the opaque external call does,
and whether the two filesystem operations that can fail do fail (the cookie
file `open`/`write` on line 73-74, the `os.remove` on line 114). -/
structure Env where
  ext : ExtOutcome
  writeFails : Bool := false
  removeFails : Bool := false
deriving DecidableEq, Repr

/-- The value `run_yt_dlp_operation` produces: the success dict of the
download branch (line 95), of the info branch (line 100), or a raised
`HTTPException(status_code, detail)`. -/
inductive GatewayResult where
  | downloaded (title : Option String) (filepath : String) (extractor : Option String)
  | metadata (info : Info)
  | httpError (status : Nat) (detail : String)
deriving DecidableEq, Repr

/-- Everything observable about one finished gateway call: its result, the
final filesystem, the option dict in `final_ydl_opts` when the `try` block is
entered (the dict handed to `yt_dlp.YoutubeDL`), whether the external library
was reached, the filesystem at the moment it was invoked, and the modelled
log lines. -/
structure GatewayRun where
  result : GatewayResult
  fs : FS
  finalOpts : Dict
  extractorInvoked : Bool
  fsAtInvoke : FS
  logs : List String
deriving DecidableEq, Repr

/-- The staged credential path `os.path.join(DOWNLOADS_DIR,
f"cookies_<pid>.txt")` (line 71): it depends only on the process id. -/
def cookie_file_path (pid : Nat) : String :=
  os_path_join DOWNLOADS_DIR ("cookies_" ++ toString pid ++ ".txt")

/-- The `except` arms of the `try` (lines 101-109) together with the success
returns (lines 95, 100). -/
def extract_result (ext : ExtOutcome) (download : Bool) : GatewayResult :=
  match ext with
  | .ok info =>
      if download then
        .downloaded info.title (prepare_filename info) info.extractor
      else
        .metadata info
  | .downloadError msg => .httpError 400 ("Download error: " ++ msg)
  | .extractorError msg =>
      .httpError 400 ("Extractor error (e.g., unsupported URL, video unavailable): " ++ msg)
  | .otherError msg => .httpError 500 ("An unexpected server error occurred: " ++ msg)

/-- The `logger.error` lines of the `except` arms (lines 102, 105, 108). -/
def extract_logs (ext : ExtOutcome) (url : String) : List String :=
  match ext with
  | .ok _ => []
  | .downloadError msg => ["yt-dlp DownloadError for " ++ url ++ ": " ++ msg]
  | .extractorError msg => ["yt-dlp ExtractorError for " ++ url ++ ": " ++ msg]
  | .otherError msg => ["An unexpected error occurred for " ++ url ++ ": " ++ msg]

/-- The `finally` block (lines 110-117): if `final_ydl_opts` has a
`cookiefile` entry and that path exists, try to `os.remove` it; a failure of
the removal is caught and only logged. -/
def cleanup_cookiefile (opts : Dict) (removeFails : Bool) (fs : FS) : FS :=
  match dictGet opts "cookiefile" with
  | some (OptVal.str p) =>
      if p ∈ fs then (if removeFails then fs else fsRemove fs p) else fs
  | _ => fs

/-- The verbose translation (lines 82-83): pop `verbose` unless it is set and
truthy. -/
def translate_verbose (opts : Dict) : Dict :=
  if dictTruthy opts "verbose" then opts else dictErase opts "verbose"

/-- The verbose translation (lines 82-83), the `try` block and its `except`
arms (lines 87-109), and the `finally` block (lines 110-117). `opts` is the
dict after cookie handling. -/
def extract_phase (url : String) (opts : Dict) (download : Bool) (env : Env)
    (fs : FS) (logs0 : List String) : GatewayRun :=
  let finalOpts := translate_verbose opts
  let result := extract_result env.ext download
  let fs2 := cleanup_cookiefile finalOpts env.removeFails fs
  { result := result, fs := fs2, finalOpts := finalOpts, extractorInvoked := true,
    fsAtInvoke := fs, logs := logs0 ++ extract_logs env.ext url }

/-- `run_yt_dlp_operation(url, ydl_options, download)` (lines 58-117). The
cookie staging (lines 66-79): when `ydl_options.get('cookies')` is truthy the
raw string is popped, written to `cookies_<pid>.txt`, and `cookiefile` is set
to that path; a write failure raises `HTTPException(500, "Failed to process
cookies.")` before the `try` block, so the external library is never reached
and the `finally` cleanup does not run. -/
def run_yt_dlp_operation (url : String) (ydl_options : Dict) (download : Bool)
    (pid : Nat) (env : Env) (fs0 : FS) : GatewayRun :=
  let final0 := ydl_options
  if dictTruthy final0 "cookies" then
    let cookie_path := cookie_file_path pid
    let final1 := dictErase final0 "cookies"
    if env.writeFails then
      { result := .httpError 500 "Failed to process cookies.",
        fs := fs0, finalOpts := final1, extractorInvoked := false, fsAtInvoke := fs0,
        logs := ["Failed to write cookie file"] }
    else
      let fs1 := fsWrite fs0 cookie_path
      let final2 := dictSet final1 "cookiefile" (OptVal.str cookie_path)
      extract_phase url final2 download env fs1 ["Using cookie file: " ++ cookie_path]
  else
    extract_phase url final0 download env fs0 []

/-- The `/info` route (lines 135-140): validate, dump options, call the
gateway with `download=False`. -/
def get_video_info (req : VideoRequest) (pid : Nat) (env : Env) (fs : FS) : GatewayRun :=
  run_yt_dlp_operation req.url req.options.model_dump_exclude_none false pid env fs

/-- The `/download` route (lines 142-150): same, with `download=True`. -/
def download_video (req : VideoRequest) (pid : Nat) (env : Env) (fs : FS) : GatewayRun :=
  run_yt_dlp_operation req.url req.options.model_dump_exclude_none true pid env fs

/-! ### Dictionary lemmas -/

theorem dictGet_erase_self (d : Dict) (k : String) : dictGet (dictErase d k) k = none := by
  induction d with
  | nil => rfl
  | cons hd tl ih =>
      rcases hd with ⟨a, v⟩
      by_cases h : a = k <;> simp [dictErase, dictGet, h, ih]

theorem dictGet_erase_ne (d : Dict) (k k' : String) (h : k' ≠ k) :
    dictGet (dictErase d k) k' = dictGet d k' := by
  induction d with
  | nil => rfl
  | cons hd tl ih =>
      rcases hd with ⟨a, v⟩
      by_cases h1 : a = k
      · have h2 : a ≠ k' := by rw [h1]; exact Ne.symm h
        simp [dictErase, dictGet, h1, h2, ih, h, Ne.symm h]
      · by_cases h2 : a = k' <;> simp [dictErase, dictGet, h1, h2, ih, h, Ne.symm h]

theorem dictGet_append (d1 d2 : Dict) (k : String) :
    dictGet (d1 ++ d2) k = (dictGet d1 k).orElse (fun _ => dictGet d2 k) := by
  induction d1 with
  | nil => rfl
  | cons hd tl ih =>
      rcases hd with ⟨a, v⟩
      by_cases h : a = k <;> simp [dictGet, h, ih]

theorem dictGet_set_self (d : Dict) (k : String) (v : OptVal) :
    dictGet (dictSet d k v) k = some v := by
  simp [dictSet, dictGet_append, dictGet_erase_self, dictGet]

theorem dictGet_set_ne (d : Dict) (k k' : String) (v : OptVal) (h : k' ≠ k) :
    dictGet (dictSet d k v) k' = dictGet d k' := by
  rw [dictSet, dictGet_append, dictGet_erase_ne d k k' h]
  cases dictGet d k' <;> simp [dictGet, Ne.symm h]

/-! ### Shape of the dumped option dict -/

theorem dump_get_cookies (o : YtDlpOptions) :
    dictGet o.model_dump_exclude_none "cookies" = o.cookies.map OptVal.str := by
  cases h : o.cookies <;>
    simp [YtDlpOptions.model_dump_exclude_none, dictGet, h]

theorem dump_get_verbose (o : YtDlpOptions) :
    dictGet o.model_dump_exclude_none "verbose" = some (OptVal.bool o.verbose) := by
  cases h : o.cookies <;>
    simp [YtDlpOptions.model_dump_exclude_none, dictGet, h]

theorem dump_truthy_cookies (o : YtDlpOptions) (s : String) (hc : o.cookies = some s) :
    dictTruthy o.model_dump_exclude_none "cookies" = (s != "") := by
  simp [dictTruthy, dump_get_cookies, hc, OptVal.truthy]

theorem dump_not_truthy_cookies (o : YtDlpOptions) (hc : o.cookies = none) :
    dictTruthy o.model_dump_exclude_none "cookies" = false := by
  simp [dictTruthy, dump_get_cookies, hc]

/-! ### Filesystem and cleanup lemmas -/

theorem mem_fsWrite (fs : FS) (p : String) : p ∈ fsWrite fs p := by
  unfold fsWrite
  split
  · assumption
  · exact List.mem_cons_self p fs

theorem not_mem_fsRemove (fs : FS) (p : String) : p ∉ fsRemove fs p := by
  simp [fsRemove, List.mem_filter]

theorem cleanup_cookiefile_absent (d : Dict) (fs : FS) (p : String)
    (hd : dictGet d "cookiefile" = some (OptVal.str p)) (h : p ∉ fs) :
    cleanup_cookiefile d false fs = fs := by
  simp [cleanup_cookiefile, hd, h]

theorem cleanup_cookiefile_removes (d : Dict) (fs : FS) (p : String)
    (hd : dictGet d "cookiefile" = some (OptVal.str p)) :
    p ∉ cleanup_cookiefile d false fs := by
  by_cases h : p ∈ fs
  · simp [cleanup_cookiefile, hd, h, not_mem_fsRemove]
  · simp [cleanup_cookiefile, hd, h]

theorem cleanup_cookiefile_idem (d : Dict) (fs : FS) :
    cleanup_cookiefile d false (cleanup_cookiefile d false fs)
      = cleanup_cookiefile d false fs := by
  rcases hg : dictGet d "cookiefile" with _ | v
  · simp [cleanup_cookiefile, hg]
  · cases v with
    | str p =>
        by_cases h : p ∈ fs
        · have h2 := not_mem_fsRemove fs p
          simp [cleanup_cookiefile, hg, h, h2]
        · simp [cleanup_cookiefile, hg, h]
    | bool b => simp [cleanup_cookiefile, hg]
    | int n => simp [cleanup_cookiefile, hg]

/-! ### Structure of a gateway run -/

theorem run_eq_staged (url : String) (opts : Dict) (download : Bool) (pid : Nat)
    (ext : ExtOutcome) (rm : Bool) (fs : FS) (h : dictTruthy opts "cookies" = true) :
    run_yt_dlp_operation url opts download pid ⟨ext, false, rm⟩ fs
      = extract_phase url
          (dictSet (dictErase opts "cookies") "cookiefile"
            (OptVal.str (cookie_file_path pid)))
          download ⟨ext, false, rm⟩ (fsWrite fs (cookie_file_path pid))
          ["Using cookie file: " ++ cookie_file_path pid] := by
  simp [run_yt_dlp_operation, h]

theorem run_eq_unstaged (url : String) (opts : Dict) (download : Bool) (pid : Nat)
    (env : Env) (fs : FS) (h : dictTruthy opts "cookies" = false) :
    run_yt_dlp_operation url opts download pid env fs
      = extract_phase url opts download env fs [] := by
  simp [run_yt_dlp_operation, h]

theorem run_result_writeOk (url : String) (opts : Dict) (download : Bool) (pid : Nat)
    (ext : ExtOutcome) (rm : Bool) (fs : FS) :
    (run_yt_dlp_operation url opts download pid ⟨ext, false, rm⟩ fs).result
      = extract_result ext download := by
  by_cases h : dictTruthy opts "cookies" <;>
    simp [run_yt_dlp_operation, extract_phase, h]

theorem run_logs_has_extract_logs (url : String) (opts : Dict) (download : Bool)
    (pid : Nat) (ext : ExtOutcome) (rm : Bool) (fs : FS) (l : String)
    (hl : l ∈ extract_logs ext url) :
    l ∈ (run_yt_dlp_operation url opts download pid ⟨ext, false, rm⟩ fs).logs := by
  by_cases h : dictTruthy opts "cookies" <;>
    simp [run_yt_dlp_operation, extract_phase, h] <;> tauto

theorem translate_verbose_get_stable (D : Dict) (k : String) (hk : k ≠ "verbose") :
    dictGet (translate_verbose D) k = dictGet D k := by
  unfold translate_verbose
  split
  · rfl
  · exact dictGet_erase_ne D "verbose" k hk

theorem translate_verbose_get_verbose (D : Dict) (b : Bool)
    (hv : dictGet D "verbose" = some (OptVal.bool b)) :
    dictGet (translate_verbose D) "verbose"
      = if b then some (OptVal.bool true) else none := by
  unfold translate_verbose
  rw [dictTruthy, hv]
  cases b
  · simp [OptVal.truthy, dictGet_erase_self]
  · simp [OptVal.truthy, hv]

/-- The dict handed to `yt_dlp.YoutubeDL` after successful staging, before the
verbose translation. -/
theorem staged_dict_get (opts : Dict) (pid : Nat) (k : String)
    (hk : k ≠ "cookiefile") (hk2 : k ≠ "cookies") :
    dictGet (dictSet (dictErase opts "cookies") "cookiefile"
        (OptVal.str (cookie_file_path pid))) k = dictGet opts k := by
  rw [dictGet_set_ne _ _ _ _ hk, dictGet_erase_ne _ _ _ hk2]

theorem dump_truthy_cookies_of_ne (o : YtDlpOptions) (s : String)
    (hc : o.cookies = some s) (hs : s ≠ "") :
    dictTruthy o.model_dump_exclude_none "cookies" = true := by
  rw [dump_truthy_cookies o s hc]
  simpa [bne_iff_ne] using hs

/-! ### Claim theorems -/

/-- C1: whenever the options carry a (truthy) credential string, the staged
cookie file exists on disk at the moment the external extractor is invoked,
is absent from the filesystem when the gateway call returns — for every
extractor outcome (normal return, DownloadError, ExtractorError, or any other
exception) — and the `finally`-block cleanup is idempotent: running it again
on the final state (where the file is already absent) changes nothing. -/
theorem C1_staged_cookie_cleanup (o : YtDlpOptions) (s url : String) (download : Bool)
    (pid : Nat) (ext : ExtOutcome) (fs0 : FS)
    (hc : o.cookies = some s) (hs : s ≠ "") :
    cookie_file_path pid ∈ (run_yt_dlp_operation url o.model_dump_exclude_none
        download pid ⟨ext, false, false⟩ fs0).fsAtInvoke
    ∧ cookie_file_path pid ∉ (run_yt_dlp_operation url o.model_dump_exclude_none
        download pid ⟨ext, false, false⟩ fs0).fs
    ∧ cleanup_cookiefile
        (run_yt_dlp_operation url o.model_dump_exclude_none
          download pid ⟨ext, false, false⟩ fs0).finalOpts false
        (run_yt_dlp_operation url o.model_dump_exclude_none
          download pid ⟨ext, false, false⟩ fs0).fs
      = (run_yt_dlp_operation url o.model_dump_exclude_none
          download pid ⟨ext, false, false⟩ fs0).fs := by
  have htr := dump_truthy_cookies_of_ne o s hc hs
  rw [run_eq_staged _ _ _ _ _ _ _ htr]
  simp only [extract_phase]
  have hD : dictGet (translate_verbose (dictSet
      (dictErase o.model_dump_exclude_none "cookies") "cookiefile"
      (OptVal.str (cookie_file_path pid)))) "cookiefile"
      = some (OptVal.str (cookie_file_path pid)) := by
    rw [translate_verbose_get_stable _ _ (by decide), dictGet_set_self]
  exact ⟨mem_fsWrite _ _, cleanup_cookiefile_removes _ _ _ hD,
    cleanup_cookiefile_idem _ _⟩

theorem C1_staged_cookie_cleanup_witness :
    (({ cookies := some "sessionid=abc123" } : YtDlpOptions).cookies
        = some "sessionid=abc123")
    ∧ ("sessionid=abc123" ≠ "")
    ∧ (cookie_file_path 42 ∈ (run_yt_dlp_operation "https://example.com/v"
          (YtDlpOptions.model_dump_exclude_none { cookies := some "sessionid=abc123" })
          false 42 ⟨.ok {}, false, false⟩ []).fsAtInvoke
       ∧ cookie_file_path 42 ∉ (run_yt_dlp_operation "https://example.com/v"
          (YtDlpOptions.model_dump_exclude_none { cookies := some "sessionid=abc123" })
          false 42 ⟨.ok {}, false, false⟩ []).fs
       ∧ cleanup_cookiefile
          (run_yt_dlp_operation "https://example.com/v"
            (YtDlpOptions.model_dump_exclude_none { cookies := some "sessionid=abc123" })
            false 42 ⟨.ok {}, false, false⟩ []).finalOpts false
          (run_yt_dlp_operation "https://example.com/v"
            (YtDlpOptions.model_dump_exclude_none { cookies := some "sessionid=abc123" })
            false 42 ⟨.ok {}, false, false⟩ []).fs
        = (run_yt_dlp_operation "https://example.com/v"
            (YtDlpOptions.model_dump_exclude_none { cookies := some "sessionid=abc123" })
            false 42 ⟨.ok {}, false, false⟩ []).fs) :=
  ⟨rfl, by decide,
   C1_staged_cookie_cleanup { cookies := some "sessionid=abc123" } "sessionid=abc123"
     "https://example.com/v" false 42 (.ok {}) [] rfl (by decide)⟩

/-- C3: a DownloadError or ExtractorError raised by the external extractor is
turned into an `HTTPException` with status 400 whose detail string includes
the underlying error message (it is the fixed prefix followed by the
message). -/
theorem C3_recognized_errors_are_400 (o : YtDlpOptions) (url msg : String)
    (download : Bool) (pid : Nat) (rm : Bool) (fs : FS) :
    (run_yt_dlp_operation url o.model_dump_exclude_none download pid
        ⟨.downloadError msg, false, rm⟩ fs).result
      = .httpError 400 ("Download error: " ++ msg)
    ∧ (run_yt_dlp_operation url o.model_dump_exclude_none download pid
        ⟨.extractorError msg, false, rm⟩ fs).result
      = .httpError 400
          ("Extractor error (e.g., unsupported URL, video unavailable): " ++ msg) := by
  constructor <;> rw [run_result_writeOk] <;> rfl

/-- C7: with a non-empty credential string, the dict handed to the external
library has no `cookies` key, has `cookiefile` bound to the staged path, and
this happened before the library was invoked (the library is reached with
exactly this dict). -/
theorem C7_cookie_substitution (o : YtDlpOptions) (s url : String) (download : Bool)
    (pid : Nat) (ext : ExtOutcome) (rm : Bool) (fs : FS)
    (hc : o.cookies = some s) (hs : s ≠ "") :
    (run_yt_dlp_operation url o.model_dump_exclude_none download pid
        ⟨ext, false, rm⟩ fs).extractorInvoked = true
    ∧ dictGet (run_yt_dlp_operation url o.model_dump_exclude_none download pid
        ⟨ext, false, rm⟩ fs).finalOpts "cookies" = none
    ∧ dictGet (run_yt_dlp_operation url o.model_dump_exclude_none download pid
        ⟨ext, false, rm⟩ fs).finalOpts "cookiefile"
      = some (OptVal.str (cookie_file_path pid)) := by
  have htr := dump_truthy_cookies_of_ne o s hc hs
  rw [run_eq_staged _ _ _ _ _ _ _ htr]
  simp only [extract_phase]
  refine ⟨trivial, ?_, ?_⟩
  · rw [translate_verbose_get_stable _ _ (by decide),
      dictGet_set_ne _ _ _ _ (by decide), dictGet_erase_self]
  · rw [translate_verbose_get_stable _ _ (by decide), dictGet_set_self]

theorem C7_cookie_substitution_witness :
    (({ cookies := some "sessionid=xyz" } : YtDlpOptions).cookies
        = some "sessionid=xyz")
    ∧ ("sessionid=xyz" ≠ "")
    ∧ ((run_yt_dlp_operation "https://example.com/w"
          (YtDlpOptions.model_dump_exclude_none { cookies := some "sessionid=xyz" })
          true 7 ⟨.ok {}, false, false⟩ []).extractorInvoked = true
       ∧ dictGet (run_yt_dlp_operation "https://example.com/w"
          (YtDlpOptions.model_dump_exclude_none { cookies := some "sessionid=xyz" })
          true 7 ⟨.ok {}, false, false⟩ []).finalOpts "cookies" = none
       ∧ dictGet (run_yt_dlp_operation "https://example.com/w"
          (YtDlpOptions.model_dump_exclude_none { cookies := some "sessionid=xyz" })
          true 7 ⟨.ok {}, false, false⟩ []).finalOpts "cookiefile"
        = some (OptVal.str (cookie_file_path 7))) :=
  ⟨rfl, by decide,
   C7_cookie_substitution { cookies := some "sessionid=xyz" } "sessionid=xyz"
     "https://example.com/w" true 7 (.ok {}) false [] rfl (by decide)⟩

/-- C9: when the verbose flag is false the dict handed to the external
library has no `verbose` key at all; when it is true the key is retained with
value `True`. -/
theorem C9_verbose_omitted_when_false (o : YtDlpOptions) (url : String)
    (download : Bool) (pid : Nat) (ext : ExtOutcome) (rm : Bool) (fs : FS) :
    (o.verbose = false →
      dictGet (run_yt_dlp_operation url o.model_dump_exclude_none download pid
          ⟨ext, false, rm⟩ fs).finalOpts "verbose" = none)
    ∧ (o.verbose = true →
      dictGet (run_yt_dlp_operation url o.model_dump_exclude_none download pid
          ⟨ext, false, rm⟩ fs).finalOpts "verbose" = some (OptVal.bool true)) := by
  have hfin : dictGet (run_yt_dlp_operation url o.model_dump_exclude_none download pid
      ⟨ext, false, rm⟩ fs).finalOpts "verbose"
      = (if o.verbose then some (OptVal.bool true) else none) := by
    by_cases h : dictTruthy o.model_dump_exclude_none "cookies"
    · rw [run_eq_staged _ _ _ _ _ _ _ h]
      simp only [extract_phase]
      rw [translate_verbose_get_verbose _ o.verbose
        (by rw [staged_dict_get _ _ _ (by decide) (by decide)]
            exact dump_get_verbose o)]
    · rw [run_eq_unstaged _ _ _ _ _ _ (by simpa using h)]
      simp only [extract_phase]
      rw [translate_verbose_get_verbose _ o.verbose (dump_get_verbose o)]
  constructor <;> intro hv <;> rw [hfin, hv] <;> simp

theorem C9_verbose_omitted_when_false_witness :
    dictGet (run_yt_dlp_operation "https://example.com/v"
        (YtDlpOptions.model_dump_exclude_none {}) false 7
        ⟨.ok {}, false, false⟩ []).finalOpts "verbose" = none
    ∧ dictGet (run_yt_dlp_operation "https://example.com/v"
        (YtDlpOptions.model_dump_exclude_none { verbose := true }) false 7
        ⟨.ok {}, false, false⟩ []).finalOpts "verbose" = some (OptVal.bool true) :=
  ⟨(C9_verbose_omitted_when_false {} "https://example.com/v" false 7 (.ok {}) false []).1 rfl,
   (C9_verbose_omitted_when_false { verbose := true } "https://example.com/v" false 7
     (.ok {}) false []).2 rfl⟩

/-- C10: a failure of `os.remove` in the `finally` block is caught and only
logged: the gateway call's result is the same as when the removal
succeeds. -/
theorem C10_cleanup_failure_suppressed (o : YtDlpOptions) (url : String)
    (download : Bool) (pid : Nat) (ext : ExtOutcome) (wf : Bool) (fs : FS) :
    (run_yt_dlp_operation url o.model_dump_exclude_none download pid
        ⟨ext, wf, true⟩ fs).result
      = (run_yt_dlp_operation url o.model_dump_exclude_none download pid
        ⟨ext, wf, false⟩ fs).result := by
  by_cases h : dictTruthy o.model_dump_exclude_none "cookies" <;> cases wf <;>
    simp [run_yt_dlp_operation, extract_phase, h]

theorem run_staged_cookiefile (o : YtDlpOptions) (s url : String) (download : Bool)
    (pid : Nat) (ext : ExtOutcome) (rm : Bool) (fs : FS)
    (hc : o.cookies = some s) (hs : s ≠ "") :
    dictGet (run_yt_dlp_operation url o.model_dump_exclude_none download pid
        ⟨ext, false, rm⟩ fs).finalOpts "cookiefile"
      = some (OptVal.str (cookie_file_path pid)) := by
  have htr := dump_truthy_cookies_of_ne o s hc hs
  rw [run_eq_staged _ _ _ _ _ _ _ htr]
  simp only [extract_phase]
  rw [translate_verbose_get_stable _ _ (by decide), dictGet_set_self]

/-- C2 counterexample: two gateway calls in the same process (same
`os.getpid()` value, as for two concurrently in-flight requests of one server
process), with distinct credential strings, stage their credentials at the
SAME path `downloads/cookies_42.txt` — the staged paths are not pairwise
distinct. -/
theorem C2_counterexample :
    dictGet (run_yt_dlp_operation "https://example.com/a"
        (YtDlpOptions.model_dump_exclude_none { cookies := some "sessionid=abc123" })
        false 42 ⟨.ok {}, false, false⟩ []).finalOpts "cookiefile"
      = dictGet (run_yt_dlp_operation "https://example.com/b"
        (YtDlpOptions.model_dump_exclude_none { cookies := some "sessionid=zzz999" })
        false 42 ⟨.ok {}, false, false⟩ []).finalOpts "cookiefile"
    ∧ dictGet (run_yt_dlp_operation "https://example.com/a"
        (YtDlpOptions.model_dump_exclude_none { cookies := some "sessionid=abc123" })
        false 42 ⟨.ok {}, false, false⟩ []).finalOpts "cookiefile"
      = some (OptVal.str "downloads/cookies_42.txt") := by
  constructor <;> decide

/-- C2 amended: the staged path is a function of the process id alone
(`downloads/cookies_<pid>.txt`), so any two gateway calls that stage
credentials in the same process — in particular two concurrently in-flight
requests of one server process — receive the SAME staged path, not distinct
ones. -/
theorem C2_staged_path_depends_only_on_pid (o1 o2 : YtDlpOptions)
    (s1 s2 url1 url2 : String) (d1 d2 : Bool) (pid : Nat) (e1 e2 : ExtOutcome)
    (rm1 rm2 : Bool) (fs1 fs2 : FS)
    (hc1 : o1.cookies = some s1) (hs1 : s1 ≠ "")
    (hc2 : o2.cookies = some s2) (hs2 : s2 ≠ "") :
    dictGet (run_yt_dlp_operation url1 o1.model_dump_exclude_none d1 pid
        ⟨e1, false, rm1⟩ fs1).finalOpts "cookiefile"
      = dictGet (run_yt_dlp_operation url2 o2.model_dump_exclude_none d2 pid
        ⟨e2, false, rm2⟩ fs2).finalOpts "cookiefile"
    ∧ dictGet (run_yt_dlp_operation url1 o1.model_dump_exclude_none d1 pid
        ⟨e1, false, rm1⟩ fs1).finalOpts "cookiefile"
      = some (OptVal.str (cookie_file_path pid)) := by
  rw [run_staged_cookiefile o1 s1 url1 d1 pid e1 rm1 fs1 hc1 hs1,
    run_staged_cookiefile o2 s2 url2 d2 pid e2 rm2 fs2 hc2 hs2]
  exact ⟨rfl, rfl⟩

theorem C2_staged_path_depends_only_on_pid_witness :
    (({ cookies := some "sid=a" } : YtDlpOptions).cookies = some "sid=a")
    ∧ ("sid=a" ≠ "")
    ∧ (({ cookies := some "sid=b" } : YtDlpOptions).cookies = some "sid=b")
    ∧ ("sid=b" ≠ "")
    ∧ (dictGet (run_yt_dlp_operation "https://example.com/a"
          (YtDlpOptions.model_dump_exclude_none { cookies := some "sid=a" })
          false 5 ⟨.ok {}, false, false⟩ []).finalOpts "cookiefile"
        = dictGet (run_yt_dlp_operation "https://example.com/b"
          (YtDlpOptions.model_dump_exclude_none { cookies := some "sid=b" })
          true 5 ⟨.downloadError "x", false, false⟩ []).finalOpts "cookiefile"
       ∧ dictGet (run_yt_dlp_operation "https://example.com/a"
          (YtDlpOptions.model_dump_exclude_none { cookies := some "sid=a" })
          false 5 ⟨.ok {}, false, false⟩ []).finalOpts "cookiefile"
        = some (OptVal.str (cookie_file_path 5))) :=
  ⟨rfl, by decide, rfl, by decide,
   C2_staged_path_depends_only_on_pid { cookies := some "sid=a" }
     { cookies := some "sid=b" } "sid=a" "sid=b" "https://example.com/a"
     "https://example.com/b" false true 5 (.ok {}) (.downloadError "x") false false
     [] [] rfl (by decide) rfl (by decide)⟩

/-- C4 counterexample: an unrecognized exception with message "boom" is
surfaced as a 500 whose client-facing detail string contains the underlying
message ("An unexpected server error occurred: boom"); in particular the
detail varies with the underlying message, so it is not generic. -/
theorem C4_counterexample :
    (run_yt_dlp_operation "https://example.com/v"
        (YtDlpOptions.model_dump_exclude_none {}) false 7
        ⟨.otherError "boom", false, false⟩ []).result
      = .httpError 500 ("An unexpected server error occurred: " ++ "boom")
    ∧ (run_yt_dlp_operation "https://example.com/v"
        (YtDlpOptions.model_dump_exclude_none {}) false 7
        ⟨.otherError "boom", false, false⟩ []).result
      ≠ (run_yt_dlp_operation "https://example.com/v"
        (YtDlpOptions.model_dump_exclude_none {}) false 7
        ⟨.otherError "kaboom", false, false⟩ []).result := by
  constructor <;> decide

/-- C4 amended: an exception outside the recognized categories yields an
internal-server-error response with HTTP status 500, and the full detail is
logged server-side; but the client-facing detail is NOT generic — it is the
fixed prefix "An unexpected server error occurred: " followed by the
underlying exception's message. -/
theorem C4_unexpected_error_500_with_message (o : YtDlpOptions) (url msg : String)
    (download : Bool) (pid : Nat) (rm : Bool) (fs : FS) :
    (run_yt_dlp_operation url o.model_dump_exclude_none download pid
        ⟨.otherError msg, false, rm⟩ fs).result
      = .httpError 500 ("An unexpected server error occurred: " ++ msg)
    ∧ ("An unexpected error occurred for " ++ url ++ ": " ++ msg)
        ∈ (run_yt_dlp_operation url o.model_dump_exclude_none download pid
        ⟨.otherError msg, false, rm⟩ fs).logs := by
  constructor
  · rw [run_result_writeOk]; rfl
  · exact run_logs_has_extract_logs _ _ _ _ _ _ _ _ (by simp [extract_logs])

/-- C5 counterexample: a payload with a URL and `retries = -1` is ACCEPTED by
validation (no field of the model declares a lower bound), contradicting the
claim that negative retry counts are rejected. -/
theorem C5_counterexample :
    validateVideoRequest
        { url := some "https://example.com/v", options := some { retries := some (-1) } }
      = .ok { url := "https://example.com/v", options := { retries := -1 } } := by
  rfl

/-- C5 amended: validation fails (with a ValidationError) iff the URL field
is missing; negative retry counts are not checked and a payload with
`retries = -1` is accepted. -/
theorem C5_validation_fails_iff_missing_url (p : RawRequestPayload) :
    validateVideoRequest p = .error .missingUrl ↔ p.url = none := by
  cases hu : p.url <;> simp [validateVideoRequest, hu]

theorem C5_validation_fails_iff_missing_url_witness :
    validateVideoRequest { url := none, options := none } = .error .missingUrl :=
  (C5_validation_fails_iff_missing_url { url := none, options := none }).2 rfl

/-- C6: omitting the options object entirely yields the documented defaults:
MP4-prioritizing format selector, output template under the fixed downloads
directory, noplaylist and nocheckcertificate true, both retry counts 5,
verbose false, and no credential string. -/
theorem C6_omitted_options_defaults (u : String) :
    validateVideoRequest { url := some u, options := none }
      = .ok { url := u, options := {} }
    ∧ ({} : YtDlpOptions).format
      = "bestvideo[ext=mp4]+bestaudio[ext=m4a]/best[ext=mp4]/best"
    ∧ ({} : YtDlpOptions).outtmpl = "downloads/%(title)s.%(ext)s"
    ∧ ({} : YtDlpOptions).noplaylist = true
    ∧ ({} : YtDlpOptions).nocheckcertificate = true
    ∧ ({} : YtDlpOptions).retries = 5
    ∧ ({} : YtDlpOptions).extractor_retries = 5
    ∧ ({} : YtDlpOptions).verbose = false
    ∧ ({} : YtDlpOptions).cookies = none := by
  refine ⟨rfl, rfl, by decide, rfl, rfl, rfl, rfl, rfl, rfl⟩

/-- C8: when writing the staged credential file fails, the gateway call
raises `HTTPException(500, "Failed to process cookies.")` and the external
extraction library is never invoked. -/
theorem C8_staging_failure_aborts (o : YtDlpOptions) (s url : String)
    (download : Bool) (pid : Nat) (ext : ExtOutcome) (rm : Bool) (fs : FS)
    (hc : o.cookies = some s) (hs : s ≠ "") :
    (run_yt_dlp_operation url o.model_dump_exclude_none download pid
        ⟨ext, true, rm⟩ fs).result = .httpError 500 "Failed to process cookies."
    ∧ (run_yt_dlp_operation url o.model_dump_exclude_none download pid
        ⟨ext, true, rm⟩ fs).extractorInvoked = false := by
  have htr := dump_truthy_cookies_of_ne o s hc hs
  simp [run_yt_dlp_operation, htr]

theorem C8_staging_failure_aborts_witness :
    (({ cookies := some "tok=1" } : YtDlpOptions).cookies = some "tok=1")
    ∧ ("tok=1" ≠ "")
    ∧ ((run_yt_dlp_operation "https://example.com/v"
          (YtDlpOptions.model_dump_exclude_none { cookies := some "tok=1" })
          false 9 ⟨.ok {}, true, false⟩ []).result
        = .httpError 500 "Failed to process cookies."
       ∧ (run_yt_dlp_operation "https://example.com/v"
          (YtDlpOptions.model_dump_exclude_none { cookies := some "tok=1" })
          false 9 ⟨.ok {}, true, false⟩ []).extractorInvoked = false) :=
  ⟨rfl, by decide,
   C8_staging_failure_aborts { cookies := some "tok=1" } "tok=1"
     "https://example.com/v" false 9 (.ok {}) false [] rfl (by decide)⟩

